import Mathlib

/-!
Shallow embedding of the sales-order domain model
(`src/sales/domain/model/sales-order.ts`, `sales-order-item.ts`).

TypeScript `number` values (quantities, monetary amounts) are embedded as `ℚ`;
every value the program manipulates here (small integers and halves) is exact
in both representations.  Thrown `Error`s become `Except` errors tagged with
the spec's error taxonomy (`InvalidArgument`, `IllegalStateTransition`,
`CurrencyMismatch`), carrying the exact message string built by the source.

Each mutating method of `SalesOrder` is embedded as a list of primitive
steps (`Step.check` / `Step.mutate`) in the source's statement order, run by
the interpreter `runSteps`.  A failing `check` aborts the run and returns the
aggregate exactly as it was at that point, so whether a method can leave the
aggregate half-mutated is a genuine question about the step list, not an
artifact of the embedding.

`Money`, `Currency` and `DateTime` live under `src/shared/domain/model/`,
which is not part of the provided sources; they are modelled from the spec
where marked.
-/

namespace SalesDomain

/-- The four states of `SalesOrderState` in `sales-order.ts`. -/
inductive SalesOrderState
  | PENDING
  | CONFIRMED
  | SHIPPED
  | CANCELLED
deriving DecidableEq, Repr

/-- The string literal the source uses for each state (the TS type is a union
of these string literals, so interpolating the state into an error message
produces exactly this text). -/
def stateName : SalesOrderState → String
  | .PENDING => "PENDING"
  | .CONFIRMED => "CONFIRMED"
  | .SHIPPED => "SHIPPED"
  | .CANCELLED => "CANCELLED"

/-- Modelled from the spec: `Currency` (source `shared/domain/model/currency.ts`
is not under `src/`) is "an enumerated/validated currency code value"; we keep
the code itself. -/
abbrev Currency := String

/-- JavaScript `String.prototype.trim()`: strips whitespace from both ends.
Written over the character list so that it evaluates inside the kernel. -/
def strTrim (s : String) : String :=
  ⟨((s.data.dropWhile Char.isWhitespace).reverse.dropWhile Char.isWhitespace).reverse⟩

/-- Error taxonomy of the spec (section 7), carrying the message string the
source attaches to the thrown `Error`. -/
inductive DomainError
  | invalidArgument (msg : String)
  | illegalStateTransition (msg : String)
  | currencyMismatch (msg : String)
deriving DecidableEq, Repr

/-- Modelled from the spec: `Money` (source `shared/domain/model/money.ts` is
not under `src/`) is an "immutable amount+currency pair". -/
structure Money where
  amount : ℚ
  currency : Currency
deriving DecidableEq

/-- Modelled from the spec: `Money.multiply(scalar) -> Money`, scalar
multiplication of the amount. -/
def Money.multiply (m : Money) (scalar : ℚ) : Money :=
  ⟨m.amount * scalar, m.currency⟩

/-- Modelled from the spec: `Money.add(Money) -> Money` "fails on currency
mismatch"; otherwise adds the amounts. -/
def Money.add (a b : Money) : Except DomainError Money :=
  if a.currency = b.currency then
    .ok ⟨a.amount + b.amount, a.currency⟩
  else
    .error (.currencyMismatch "Cannot operate on different currencies")

/-- Modelled from the spec: `DateTime` (source `shared/domain/model/date-time.ts`
is not under `src/`) "wraps a validated timestamp not in the future". -/
structure DateTime where
  timestamp : Int
deriving DecidableEq

/-- The optional `Date | string` argument of the `DateTime` constructor: absent
(defaults to now), a parseable instant, or an unparseable string. -/
inductive DateInput
  | omitted
  | given (t : Int)
  | unparseable
deriving DecidableEq

/-- Modelled from the spec: `DateTime` is "constructed from an optional
date/string, fails if invalid or in the future"; defaults to the current
time. -/
def DateTime.create (input : DateInput) (now : Int) : Except DomainError DateTime :=
  match input with
  | .omitted => .ok ⟨now⟩
  | .given t => if now < t then .error (.invalidArgument "Date cannot be in the future") else .ok ⟨t⟩
  | .unparseable => .error (.invalidArgument "Invalid date")

/-- `SalesOrderItem` of `sales-order-item.ts`: all fields `readonly`, set once
by the constructor (which stores its arguments unchanged and a fresh
`uuidv4()` item id, passed here explicitly). -/
structure SalesOrderItem where
  orderId : String
  itemId : String
  productId : String
  quantity : ℚ
  unitPrice : Money
deriving DecidableEq

/-- `calculateItemPrice()` of `sales-order-item.ts`: `unitPrice.multiply(quantity)`. -/
def SalesOrderItem.calculateItemPrice (it : SalesOrderItem) : Money :=
  it.unitPrice.multiply it.quantity

/-- The fields of the `SalesOrder` aggregate of `sales-order.ts`.  `id`,
`customerId`, `items` (the array reference), `orderedAt` and `currency` are
`readonly`; only `state` is declared mutable, and `items` is mutated through
`push`. -/
structure SalesOrder where
  id : String
  customerId : String
  items : List SalesOrderItem
  orderedAt : DateTime
  currency : Currency
  state : SalesOrderState
deriving DecidableEq

/-- A primitive statement of a mutating method: a guard that throws when its
condition is false, or a mutation of the aggregate. -/
inductive Step
  | check (cond : SalesOrder → Bool) (err : SalesOrder → DomainError)
  | mutate (f : SalesOrder → SalesOrder)

/-- Runs a method body.  A failing check aborts, returning the error together
with the aggregate exactly as it is at that moment — so a run that had already
mutated would surface the half-mutated aggregate in the error. -/
def runSteps : List Step → SalesOrder → Except (DomainError × SalesOrder) SalesOrder
  | [], o => .ok o
  | .check cond err :: rest, o =>
      if cond o then runSteps rest o else .error (err o, o)
  | .mutate f :: rest, o => runSteps rest (f o)

/-- `canAddItems()` of `sales-order.ts`:
`this._state !== "CANCELLED" && this._state !== "SHIPPED"`. -/
def SalesOrder.canAddItems (o : SalesOrder) : Bool :=
  o.state ≠ SalesOrderState.CANCELLED ∧ o.state ≠ SalesOrderState.SHIPPED

/-- The body of `addItem(productId, quantity, unitPriceAmount)` in source
statement order: product-id guard, quantity guard, state guard, then the
single push of the freshly constructed item (`new Money(unitPriceAmount,
this._currency)`, `new SalesOrderItem(this._id, productId.trim(), quantity,
unitPrice)`).  `itemId` stands for the `uuidv4()` the item constructor
draws. -/
def addItemSteps (itemId productId : String) (quantity unitPriceAmount : ℚ) : List Step :=
  [ .check (fun _ => ¬ strTrim productId = "")
      (fun _ => .invalidArgument "Product ID cannot be empty"),
    .check (fun _ => ¬ quantity ≤ 0)
      (fun _ => .invalidArgument "Quantity must be greater than zero"),
    .check (fun o => o.canAddItems)
      (fun o => .illegalStateTransition
        ("Cannot add items to a " ++ stateName o.state ++ " order")),
    .mutate (fun o =>
      { o with items := o.items ++
          [⟨o.id, itemId, strTrim productId, quantity, ⟨unitPriceAmount, o.currency⟩⟩] }) ]

/-- `addItem` of `sales-order.ts`, as the run of its step list. -/
def SalesOrder.addItem (o : SalesOrder) (itemId productId : String)
    (quantity unitPriceAmount : ℚ) : Except (DomainError × SalesOrder) SalesOrder :=
  runSteps (addItemSteps itemId productId quantity unitPriceAmount) o

/-- The body of `confirm()`: `if (this._state === "PENDING") { this._state =
"CONFIRMED"; } else { throw ... }` — one guard, one state assignment. -/
def confirmSteps : List Step :=
  [ .check (fun o => o.state = SalesOrderState.PENDING)
      (fun o => .illegalStateTransition
        ("Cannot confirm an order that is " ++ stateName o.state)),
    .mutate (fun o => { o with state := SalesOrderState.CONFIRMED }) ]

/-- `confirm` of `sales-order.ts`. -/
def SalesOrder.confirm (o : SalesOrder) : Except (DomainError × SalesOrder) SalesOrder :=
  runSteps confirmSteps o

/-- The body of `ship()`: legal only from `CONFIRMED`. -/
def shipSteps : List Step :=
  [ .check (fun o => o.state = SalesOrderState.CONFIRMED)
      (fun o => .illegalStateTransition
        ("Cannot ship an order that is " ++ stateName o.state)),
    .mutate (fun o => { o with state := SalesOrderState.SHIPPED }) ]

/-- `ship` of `sales-order.ts`. -/
def SalesOrder.ship (o : SalesOrder) : Except (DomainError × SalesOrder) SalesOrder :=
  runSteps shipSteps o

/-- The body of `cancel()`: `if (this._state === "SHIPPED" || this._state ===
"CANCELLED") throw ...; this._state = "CANCELLED";`. -/
def cancelSteps : List Step :=
  [ .check (fun o => ¬ (o.state = SalesOrderState.SHIPPED ∨ o.state = SalesOrderState.CANCELLED))
      (fun o => .illegalStateTransition
        ("Cannot cancel an order that is " ++ stateName o.state)),
    .mutate (fun o => { o with state := SalesOrderState.CANCELLED }) ]

/-- `cancel` of `sales-order.ts`. -/
def SalesOrder.cancel (o : SalesOrder) : Except (DomainError × SalesOrder) SalesOrder :=
  runSteps cancelSteps o

/-- The `SalesOrder` constructor: rejects an empty/whitespace `customerId`
(`!customerId || customerId.trim() === ""`), draws `uuidv4()` (passed here as
`id`), trims the customer id, starts with no items, validates `orderedAt`
through the `DateTime` constructor, and starts in state `PENDING`. -/
def SalesOrder.create (id customerId : String) (currency : Currency)
    (orderedAt : DateInput) (now : Int) : Except DomainError SalesOrder :=
  if strTrim customerId = "" then
    .error (.invalidArgument "Customer ID cannot be empty")
  else
    match DateTime.create orderedAt now with
    | .error e => .error e
    | .ok dt => .ok ⟨id, strTrim customerId, [], dt, currency, .PENDING⟩

/-- The `reduce` inside `calculateTotalPrice()`: a left fold of `Money.add`
over the items' `calculateItemPrice()`; the first currency mismatch thrown by
`add` aborts the fold. -/
def totalPriceGo : Money → List SalesOrderItem → Except DomainError Money
  | total, [] => .ok total
  | total, it :: rest =>
      match total.add it.calculateItemPrice with
      | .error e => .error e
      | .ok t => totalPriceGo t rest

/-- `calculateTotalPrice()` of `sales-order.ts`: the fold above started from
`new Money(0, this._currency)`.  It takes the order and returns a `Money`
without producing a new order: the method is pure. -/
def SalesOrder.calculateTotalPrice (o : SalesOrder) : Except DomainError Money :=
  totalPriceGo (Money.mk 0 o.currency) o.items

/-- The kind of a domain error, ignoring the message. -/
inductive ErrKind
  | invalidArg
  | illegalState
  | mismatch
deriving DecidableEq, Repr

/-- Classifies a domain error by its taxonomy kind. -/
def DomainError.kind : DomainError → ErrKind
  | .invalidArgument _ => .invalidArg
  | .illegalStateTransition _ => .illegalState
  | .currencyMismatch _ => .mismatch

/-- A concrete order used to instantiate universally quantified theorems:
fixed ids, USD, epoch order date, no items, in the given state. -/
def sampleOrder (s : SalesOrderState) : SalesOrder :=
  ⟨"order-1", "customer-1", [], ⟨0⟩, "USD", s⟩

/-- Functional characterization of `confirm`: from `PENDING` it moves the
state to `CONFIRMED`; from anywhere else it throws, leaving the aggregate
untouched. -/
theorem SalesOrder.confirm_eq (o : SalesOrder) :
    o.confirm =
      if o.state = SalesOrderState.PENDING then
        Except.ok { o with state := SalesOrderState.CONFIRMED }
      else
        Except.error (DomainError.illegalStateTransition
          ("Cannot confirm an order that is " ++ stateName o.state), o) := by
  by_cases h : o.state = SalesOrderState.PENDING <;>
    simp [SalesOrder.confirm, confirmSteps, runSteps, h]

/-- Functional characterization of `ship`: legal only from `CONFIRMED`. -/
theorem SalesOrder.ship_eq (o : SalesOrder) :
    o.ship =
      if o.state = SalesOrderState.CONFIRMED then
        Except.ok { o with state := SalesOrderState.SHIPPED }
      else
        Except.error (DomainError.illegalStateTransition
          ("Cannot ship an order that is " ++ stateName o.state), o) := by
  by_cases h : o.state = SalesOrderState.CONFIRMED <;>
    simp [SalesOrder.ship, shipSteps, runSteps, h]

/-- Functional characterization of `cancel`: throws from `SHIPPED` or
`CANCELLED`, otherwise moves the state to `CANCELLED`. -/
theorem SalesOrder.cancel_eq (o : SalesOrder) :
    o.cancel =
      if o.state = SalesOrderState.SHIPPED ∨ o.state = SalesOrderState.CANCELLED then
        Except.error (DomainError.illegalStateTransition
          ("Cannot cancel an order that is " ++ stateName o.state), o)
      else
        Except.ok { o with state := SalesOrderState.CANCELLED } := by
  by_cases h : o.state = SalesOrderState.SHIPPED ∨ o.state = SalesOrderState.CANCELLED <;>
    simp [SalesOrder.cancel, cancelSteps, runSteps, h]

/-- Functional characterization of `addItem`: the two argument guards in
order, then the state guard, then the append of the freshly built item. -/
theorem SalesOrder.addItem_eq (o : SalesOrder) (itemId productId : String)
    (quantity unitPriceAmount : ℚ) :
    o.addItem itemId productId quantity unitPriceAmount =
      if strTrim productId = "" then
        Except.error (DomainError.invalidArgument "Product ID cannot be empty", o)
      else if quantity ≤ 0 then
        Except.error (DomainError.invalidArgument "Quantity must be greater than zero", o)
      else if o.canAddItems then
        Except.ok { o with items := o.items ++
          [⟨o.id, itemId, strTrim productId, quantity, ⟨unitPriceAmount, o.currency⟩⟩] }
      else
        Except.error (DomainError.illegalStateTransition
          ("Cannot add items to a " ++ stateName o.state ++ " order"), o) := by
  by_cases h1 : strTrim productId = "" <;>
    by_cases h2 : quantity ≤ 0 <;>
      by_cases h3 : o.canAddItems <;>
        simp [SalesOrder.addItem, addItemSteps, runSteps, h1, h2, h3]

/-- The fold inside `calculateTotalPrice`, with the accumulator generalized:
when every item is denominated in the accumulator's currency, no `add` call
can fail and the amounts simply sum. -/
theorem totalPrice_aux (c : Currency) (items : List SalesOrderItem) (acc : ℚ)
    (h : ∀ it ∈ items, it.unitPrice.currency = c) :
    totalPriceGo (Money.mk acc c) items =
      Except.ok ⟨acc + (items.map (fun it => it.unitPrice.amount * it.quantity)).sum, c⟩ := by
  induction items generalizing acc with
  | nil => simp [totalPriceGo]
  | cons it rest ih =>
      have hc : it.unitPrice.currency = c := h it (List.mem_cons_self it rest)
      have hrest : ∀ x ∈ rest, x.unitPrice.currency = c :=
        fun x hx => h x (List.mem_cons_of_mem it hx)
      have ih' : ∀ a : ℚ, totalPriceGo (Money.mk a c) rest =
          Except.ok ⟨a + (rest.map (fun it => it.unitPrice.amount * it.quantity)).sum, c⟩ :=
        fun a => ih a hrest
      simp [totalPriceGo, SalesOrderItem.calculateItemPrice, Money.multiply,
        Money.add, hc, ih']
      ring

/-- C1: state transitions follow exactly the edges PENDING→CONFIRMED→SHIPPED
and PENDING|CONFIRMED→CANCELLED: `confirm` succeeds only from PENDING, `ship`
only from CONFIRMED, `cancel` only from PENDING or CONFIRMED, and every other
attempt fails with an `IllegalStateTransition` error carrying the aggregate
unchanged. -/
theorem claim_C1_state_machine (o : SalesOrder) :
    (o.state = SalesOrderState.PENDING →
      o.confirm = Except.ok { o with state := SalesOrderState.CONFIRMED }) ∧
    (o.state ≠ SalesOrderState.PENDING →
      o.confirm = Except.error (DomainError.illegalStateTransition
        ("Cannot confirm an order that is " ++ stateName o.state), o)) ∧
    (o.state = SalesOrderState.CONFIRMED →
      o.ship = Except.ok { o with state := SalesOrderState.SHIPPED }) ∧
    (o.state ≠ SalesOrderState.CONFIRMED →
      o.ship = Except.error (DomainError.illegalStateTransition
        ("Cannot ship an order that is " ++ stateName o.state), o)) ∧
    (o.state = SalesOrderState.PENDING ∨ o.state = SalesOrderState.CONFIRMED →
      o.cancel = Except.ok { o with state := SalesOrderState.CANCELLED }) ∧
    (o.state = SalesOrderState.SHIPPED ∨ o.state = SalesOrderState.CANCELLED →
      o.cancel = Except.error (DomainError.illegalStateTransition
        ("Cannot cancel an order that is " ++ stateName o.state), o)) := by
  refine ⟨fun h => ?_, fun h => ?_, fun h => ?_, fun h => ?_, fun h => ?_, fun h => ?_⟩
  · rw [SalesOrder.confirm_eq, if_pos h]
  · rw [SalesOrder.confirm_eq, if_neg h]
  · rw [SalesOrder.ship_eq, if_pos h]
  · rw [SalesOrder.ship_eq, if_neg h]
  · rw [SalesOrder.cancel_eq, if_neg (by rcases h with h | h <;> simp [h])]
  · rw [SalesOrder.cancel_eq, if_pos h]

/-- Witness for C1 at concrete orders: a PENDING order confirms, a SHIPPED
order refuses to cancel and is returned unchanged. -/
theorem claim_C1_witness :
    (sampleOrder SalesOrderState.PENDING).confirm
        = Except.ok { sampleOrder SalesOrderState.PENDING with
            state := SalesOrderState.CONFIRMED } ∧
    (sampleOrder SalesOrderState.SHIPPED).cancel
        = Except.error (DomainError.illegalStateTransition
            "Cannot cancel an order that is SHIPPED",
            sampleOrder SalesOrderState.SHIPPED) := by
  refine ⟨(claim_C1_state_machine (sampleOrder SalesOrderState.PENDING)).1 rfl, ?_⟩
  exact (claim_C1_state_machine (sampleOrder SalesOrderState.SHIPPED)).2.2.2.2.2 (Or.inl rfl)

/-- C7: `confirm` is legal only from PENDING, where it yields the CONFIRMED
order; from any other state it fails with `IllegalStateTransition`, the order
unchanged, and the message ends with the name of the current state. -/
theorem claim_C7_confirm_guard (o : SalesOrder) :
    (o.state = SalesOrderState.PENDING →
      o.confirm = Except.ok { o with state := SalesOrderState.CONFIRMED }) ∧
    (o.state ≠ SalesOrderState.PENDING →
      ∃ msg, o.confirm = Except.error (DomainError.illegalStateTransition msg, o) ∧
        ∃ pre, msg = pre ++ stateName o.state) := by
  refine ⟨fun h => ?_, fun h => ?_⟩
  · rw [SalesOrder.confirm_eq, if_pos h]
  · exact ⟨"Cannot confirm an order that is " ++ stateName o.state,
      by rw [SalesOrder.confirm_eq, if_neg h],
      "Cannot confirm an order that is ", rfl⟩

/-- Witness for C7: a CANCELLED order cannot confirm; the message names
CANCELLED. -/
theorem claim_C7_witness :
    ∃ msg, (sampleOrder SalesOrderState.CANCELLED).confirm
        = Except.error (DomainError.illegalStateTransition msg,
            sampleOrder SalesOrderState.CANCELLED) ∧
      ∃ pre, msg = pre ++ stateName SalesOrderState.CANCELLED :=
  (claim_C7_confirm_guard (sampleOrder SalesOrderState.CANCELLED)).2 (by decide)

/-- C8: atomicity — whenever `addItem`, `confirm`, `ship` or `cancel` throws,
the aggregate surfaced at the failure point is exactly the aggregate the call
started from: no operation commits a partial mutation before failing. -/
theorem claim_C8_atomicity (o : SalesOrder) (itemId productId : String) (q amt : ℚ) :
    (∀ e o', o.addItem itemId productId q amt = Except.error (e, o') → o' = o) ∧
    (∀ e o', o.confirm = Except.error (e, o') → o' = o) ∧
    (∀ e o', o.ship = Except.error (e, o') → o' = o) ∧
    (∀ e o', o.cancel = Except.error (e, o') → o' = o) := by
  refine ⟨fun e o' h => ?_, fun e o' h => ?_, fun e o' h => ?_, fun e o' h => ?_⟩
  · rw [SalesOrder.addItem_eq] at h; split_ifs at h <;> simp_all
  · rw [SalesOrder.confirm_eq] at h; split_ifs at h; simp_all
  · rw [SalesOrder.ship_eq] at h; split_ifs at h; simp_all
  · rw [SalesOrder.cancel_eq] at h; split_ifs at h; simp_all

/-- Witness for C8: a SHIPPED order's failing `confirm` returns it unchanged. -/
theorem claim_C8_witness :
    sampleOrder SalesOrderState.SHIPPED = sampleOrder SalesOrderState.SHIPPED :=
  (claim_C8_atomicity (sampleOrder SalesOrderState.SHIPPED) "item-1" "P001" 1 1).2.1
    (DomainError.illegalStateTransition "Cannot confirm an order that is SHIPPED")
    (sampleOrder SalesOrderState.SHIPPED) (by rfl)

/-- Counterexample to C2 as stated: on a CANCELLED order, `addItem` with an
empty product id fails with the `InvalidArgument` error "Product ID cannot be
empty", not with `IllegalStateTransition` — the argument guards run before the
state guard. -/
theorem claim_C2_counterexample :
    (sampleOrder SalesOrderState.CANCELLED).addItem "item-1" "" 1 1
        = Except.error (DomainError.invalidArgument "Product ID cannot be empty",
            sampleOrder SalesOrderState.CANCELLED) ∧
    (DomainError.invalidArgument "Product ID cannot be empty").kind ≠ ErrKind.illegalState := by
  exact ⟨rfl, by decide⟩

/-- C2 (amended): on a CANCELLED or SHIPPED order every `addItem` call fails
and returns the order unchanged (so nothing is ever appended); the failure is
the `IllegalStateTransition` error whenever the arguments pass their own
guards (non-blank product id, positive quantity), and an `InvalidArgument`
failure otherwise. -/
theorem claim_C2_addItem_rejected (o : SalesOrder)
    (hs : o.state = SalesOrderState.CANCELLED ∨ o.state = SalesOrderState.SHIPPED)
    (itemId productId : String) (q amt : ℚ) :
    (∃ e, o.addItem itemId productId q amt = Except.error (e, o)) ∧
    (strTrim productId ≠ "" → ¬ q ≤ 0 →
      o.addItem itemId productId q amt
        = Except.error (DomainError.illegalStateTransition
            ("Cannot add items to a " ++ stateName o.state ++ " order"), o)) := by
  have hcan : ¬ (o.canAddItems = true) := by
    rcases hs with h | h <;> simp [SalesOrder.canAddItems, h]
  constructor
  · by_cases h1 : strTrim productId = ""
    · exact ⟨_, by rw [SalesOrder.addItem_eq, if_pos h1]⟩
    · by_cases h2 : q ≤ 0
      · exact ⟨_, by rw [SalesOrder.addItem_eq, if_neg h1, if_pos h2]⟩
      · exact ⟨_, by rw [SalesOrder.addItem_eq, if_neg h1, if_neg h2, if_neg hcan]⟩
  · intro h1 h2
    rw [SalesOrder.addItem_eq, if_neg h1, if_neg h2, if_neg hcan]

/-- Witness for the amended C2: a CANCELLED order rejects a well-formed
`addItem` with the `IllegalStateTransition` error and stays unchanged. -/
theorem claim_C2_witness :
    (∃ e, (sampleOrder SalesOrderState.CANCELLED).addItem "item-1" "P001" 2 100
        = Except.error (e, sampleOrder SalesOrderState.CANCELLED)) ∧
    (strTrim "P001" ≠ "" → ¬ (2 : ℚ) ≤ 0 →
      (sampleOrder SalesOrderState.CANCELLED).addItem "item-1" "P001" 2 100
        = Except.error (DomainError.illegalStateTransition
            ("Cannot add items to a "
              ++ stateName (sampleOrder SalesOrderState.CANCELLED).state ++ " order"),
            sampleOrder SalesOrderState.CANCELLED)) :=
  claim_C2_addItem_rejected (sampleOrder SalesOrderState.CANCELLED)
    (Or.inl rfl) "item-1" "P001" 2 100

/-- C5: a successful `addItem` appends exactly one item — the item count goes
up by one, the earlier items stay in place — and the state field is untouched;
a failing `addItem` leaves the whole aggregate unchanged. -/
theorem claim_C5_addItem_frame (o : SalesOrder) (itemId productId : String) (q amt : ℚ) :
    (∀ o', o.addItem itemId productId q amt = Except.ok o' →
      o'.items = o.items ++ [⟨o.id, itemId, strTrim productId, q, ⟨amt, o.currency⟩⟩] ∧
      o'.items.length = o.items.length + 1 ∧
      o'.state = o.state) ∧
    (∀ e o', o.addItem itemId productId q amt = Except.error (e, o') → o' = o) := by
  constructor
  · intro o' h
    rw [SalesOrder.addItem_eq] at h
    split_ifs at h
    all_goals simp at h
    subst h
    exact ⟨rfl, by simp, rfl⟩
  · intro e o' h
    rw [SalesOrder.addItem_eq] at h
    split_ifs at h <;> simp_all

/-- Witness for C5: adding P001 ×2 at price 100 to a fresh PENDING order
appends exactly that item and keeps the state PENDING. -/
theorem claim_C5_witness :
    (SalesOrder.mk "order-1" "customer-1"
        [⟨"order-1", "item-1", "P001", 2, ⟨100, "USD"⟩⟩] ⟨0⟩ "USD"
        SalesOrderState.PENDING).items
      = (sampleOrder SalesOrderState.PENDING).items ++
        [⟨"order-1", "item-1", "P001", 2, ⟨100, "USD"⟩⟩] ∧
    (SalesOrder.mk "order-1" "customer-1"
        [⟨"order-1", "item-1", "P001", 2, ⟨100, "USD"⟩⟩] ⟨0⟩ "USD"
        SalesOrderState.PENDING).items.length
      = (sampleOrder SalesOrderState.PENDING).items.length + 1 ∧
    (SalesOrder.mk "order-1" "customer-1"
        [⟨"order-1", "item-1", "P001", 2, ⟨100, "USD"⟩⟩] ⟨0⟩ "USD"
        SalesOrderState.PENDING).state
      = (sampleOrder SalesOrderState.PENDING).state := by
  have h := (claim_C5_addItem_frame (sampleOrder SalesOrderState.PENDING)
    "item-1" "P001" 2 100).1
    (SalesOrder.mk "order-1" "customer-1"
      [⟨"order-1", "item-1", "P001", 2, ⟨100, "USD"⟩⟩] ⟨0⟩ "USD"
      SalesOrderState.PENDING) (by rfl)
  exact h

/-- C6: `addItem` rejects a blank product id (empty or whitespace-only after
trimming) with the `InvalidArgument` "Product ID cannot be empty" error, and a
non-positive quantity with the `InvalidArgument` "Quantity must be greater
than zero" error; with valid arguments and a permitting state it appends one
item carrying the trimmed product id, the quantity, and the unit price
`Money(unitPriceAmount, order.currency)`. -/
theorem claim_C6_addItem_contract (o : SalesOrder) (itemId productId : String) (q amt : ℚ) :
    (strTrim productId = "" →
      o.addItem itemId productId q amt
        = Except.error (DomainError.invalidArgument "Product ID cannot be empty", o)) ∧
    (strTrim productId ≠ "" → q ≤ 0 →
      o.addItem itemId productId q amt
        = Except.error (DomainError.invalidArgument "Quantity must be greater than zero", o)) ∧
    (strTrim productId ≠ "" → ¬ q ≤ 0 → o.canAddItems = true →
      o.addItem itemId productId q amt
        = Except.ok { o with items := o.items ++
            [⟨o.id, itemId, strTrim productId, q, ⟨amt, o.currency⟩⟩] }) := by
  refine ⟨fun h1 => ?_, fun h1 h2 => ?_, fun h1 h2 h3 => ?_⟩
  · rw [SalesOrder.addItem_eq, if_pos h1]
  · rw [SalesOrder.addItem_eq, if_neg h1, if_pos h2]
  · rw [SalesOrder.addItem_eq, if_neg h1, if_neg h2, if_pos h3]

/-- Witness for C6: on a fresh PENDING order, a whitespace-only product id is
rejected, quantity 0 is rejected, and (P001, 2, 100) is appended. -/
theorem claim_C6_witness :
    (sampleOrder SalesOrderState.PENDING).addItem "item-1" "   " 2 100
        = Except.error (DomainError.invalidArgument "Product ID cannot be empty",
            sampleOrder SalesOrderState.PENDING) ∧
    (sampleOrder SalesOrderState.PENDING).addItem "item-1" "P001" 0 100
        = Except.error (DomainError.invalidArgument "Quantity must be greater than zero",
            sampleOrder SalesOrderState.PENDING) ∧
    (sampleOrder SalesOrderState.PENDING).addItem "item-1" "P001" 2 100
        = Except.ok { sampleOrder SalesOrderState.PENDING with items :=
            (sampleOrder SalesOrderState.PENDING).items ++
              [⟨"order-1", "item-1", strTrim "P001", 2, ⟨100, "USD"⟩⟩] } :=
  ⟨(claim_C6_addItem_contract (sampleOrder SalesOrderState.PENDING)
      "item-1" "   " 2 100).1 (by decide),
   (claim_C6_addItem_contract (sampleOrder SalesOrderState.PENDING)
      "item-1" "P001" 0 100).2.1 (by decide) (by norm_num),
   (claim_C6_addItem_contract (sampleOrder SalesOrderState.PENDING)
      "item-1" "P001" 2 100).2.2 (by decide) (by norm_num) (by decide)⟩

/-- C10: the argument guards of `addItem` run before the state guard, so even
on a CANCELLED or SHIPPED order a blank product id (resp. non-positive
quantity) produces the `InvalidArgument` error — a constructor distinct from
`IllegalStateTransition` — with its message about the argument, not the
state. -/
theorem claim_C10_arg_checks_first (o : SalesOrder)
    (_hs : o.state = SalesOrderState.CANCELLED ∨ o.state = SalesOrderState.SHIPPED)
    (itemId productId : String) (q amt : ℚ) :
    (strTrim productId = "" →
      o.addItem itemId productId q amt
        = Except.error (DomainError.invalidArgument "Product ID cannot be empty", o) ∧
      (DomainError.invalidArgument "Product ID cannot be empty").kind ≠ ErrKind.illegalState) ∧
    (strTrim productId ≠ "" → q ≤ 0 →
      o.addItem itemId productId q amt
        = Except.error (DomainError.invalidArgument "Quantity must be greater than zero", o) ∧
      (DomainError.invalidArgument "Quantity must be greater than zero").kind
        ≠ ErrKind.illegalState) := by
  refine ⟨fun h1 => ⟨?_, by decide⟩, fun h1 h2 => ⟨?_, by decide⟩⟩
  · rw [SalesOrder.addItem_eq, if_pos h1]
  · rw [SalesOrder.addItem_eq, if_neg h1, if_pos h2]

/-- Witness for C10: a CANCELLED order still reports the empty product id, and
a SHIPPED order still reports the zero quantity. -/
theorem claim_C10_witness :
    ((sampleOrder SalesOrderState.CANCELLED).addItem "item-1" "" 1 1
        = Except.error (DomainError.invalidArgument "Product ID cannot be empty",
            sampleOrder SalesOrderState.CANCELLED) ∧
      (DomainError.invalidArgument "Product ID cannot be empty").kind ≠ ErrKind.illegalState) ∧
    ((sampleOrder SalesOrderState.SHIPPED).addItem "item-1" "P001" 0 1
        = Except.error (DomainError.invalidArgument "Quantity must be greater than zero",
            sampleOrder SalesOrderState.SHIPPED) ∧
      (DomainError.invalidArgument "Quantity must be greater than zero").kind
        ≠ ErrKind.illegalState) :=
  ⟨(claim_C10_arg_checks_first (sampleOrder SalesOrderState.CANCELLED)
      (Or.inl rfl) "item-1" "" 1 1).1 (by decide),
   (claim_C10_arg_checks_first (sampleOrder SalesOrderState.SHIPPED)
      (Or.inr rfl) "item-1" "P001" 0 1).2 (by decide) (by norm_num)⟩

/-- C3: for a customer id that is non-blank after trimming and an order date
the `DateTime` collaborator accepts, the constructor succeeds with a PENDING
order holding no items, whose total price is the zero amount in the order's
currency. -/
theorem claim_C3_fresh_order (id customerId : String) (currency : Currency)
    (input : DateInput) (now : Int) (dt : DateTime)
    (h1 : strTrim customerId ≠ "")
    (h2 : DateTime.create input now = Except.ok dt) :
    SalesOrder.create id customerId currency input now
        = Except.ok ⟨id, strTrim customerId, [], dt, currency, SalesOrderState.PENDING⟩ ∧
    (SalesOrder.mk id (strTrim customerId) [] dt currency
        SalesOrderState.PENDING).calculateTotalPrice
      = Except.ok (Money.mk 0 currency) := by
  constructor
  · rw [SalesOrder.create, if_neg h1, h2]
  · rfl

/-- Witness for C3: customer "Alice", USD, order date defaulted to now. -/
theorem claim_C3_witness :
    SalesOrder.create "order-1" "Alice" "USD" DateInput.omitted 0
        = Except.ok ⟨"order-1", strTrim "Alice", [], ⟨0⟩, "USD", SalesOrderState.PENDING⟩ ∧
    (SalesOrder.mk "order-1" (strTrim "Alice") [] ⟨0⟩ "USD"
        SalesOrderState.PENDING).calculateTotalPrice
      = Except.ok (Money.mk 0 "USD") :=
  claim_C3_fresh_order "order-1" "Alice" "USD" DateInput.omitted 0 ⟨0⟩ (by decide) rfl

/-- C4: `calculateTotalPrice` is a pure function of the order (it returns a
`Money` and no mutated order) and, whenever every stored item is denominated
in the order's currency, it returns exactly the sum over the items of
unit-price × quantity in that currency, starting from the zero amount. -/
theorem claim_C4_total_price (o : SalesOrder)
    (h : ∀ it ∈ o.items, it.unitPrice.currency = o.currency) :
    o.calculateTotalPrice
      = Except.ok ⟨(o.items.map (fun it => it.unitPrice.amount * it.quantity)).sum,
          o.currency⟩ := by
  have haux := totalPrice_aux o.currency o.items 0 h
  rw [SalesOrder.calculateTotalPrice, haux]
  norm_num

/-- Witness for C4, the spec's own scenario: items (qty 2, price 100) and
(qty 20, price 50) in USD total 1200 USD. -/
theorem claim_C4_witness :
    (SalesOrder.mk "order-1" "customer-1"
        [⟨"order-1", "item-1", "P001", 2, ⟨100, "USD"⟩⟩,
         ⟨"order-1", "item-2", "P002", 20, ⟨50, "USD"⟩⟩]
        ⟨0⟩ "USD" SalesOrderState.PENDING).calculateTotalPrice
      = Except.ok (Money.mk 1200 "USD") := by
  have h := claim_C4_total_price
    (SalesOrder.mk "order-1" "customer-1"
      [⟨"order-1", "item-1", "P001", 2, ⟨100, "USD"⟩⟩,
       ⟨"order-1", "item-2", "P002", 20, ⟨50, "USD"⟩⟩]
      ⟨0⟩ "USD" SalesOrderState.PENDING) (by decide)
  rw [h]
  norm_num

/-- The rational one half, in reduced form. -/
def halfQ : ℚ := Rat.mk' 1 2 (by omega) (Nat.coprime_one_left 2)

/-- Counterexample to C9 as stated: `addItem` accepts the non-integer quantity
one half (its guard only rejects quantities ≤ 0), appending an item whose
quantity is no integer — its reduced denominator is 2, and it equals no
integer cast. -/
theorem claim_C9_counterexample :
    (sampleOrder SalesOrderState.PENDING).addItem "item-1" "P001" halfQ 10
        = Except.ok { sampleOrder SalesOrderState.PENDING with
            items := [⟨"order-1", "item-1", "P001", halfQ, ⟨10, "USD"⟩⟩] } ∧
    halfQ.den = 2 ∧ ¬ ∃ n : ℤ, halfQ = (n : ℚ) := by
  refine ⟨rfl, rfl, ?_⟩
  rintro ⟨n, hn⟩
  have h2 : halfQ.den = 2 := rfl
  rw [hn, Rat.den_intCast] at h2
  exact absurd h2 (by omega)

/-- C9 (amended): every quantity accepted by `addItem` is positive — the
appended item carries exactly the accepted quantity, and that quantity
satisfies 0 < q — but the guard does not require the quantity to be an
integer. -/
theorem claim_C9_positive_quantity (o : SalesOrder) (itemId productId : String)
    (q amt : ℚ) (o' : SalesOrder)
    (h : o.addItem itemId productId q amt = Except.ok o') :
    0 < q ∧ o'.items = o.items ++
      [⟨o.id, itemId, strTrim productId, q, ⟨amt, o.currency⟩⟩] := by
  rw [SalesOrder.addItem_eq] at h
  split_ifs at h with h1 h2 h3
  all_goals simp at h
  subst h
  exact ⟨lt_of_not_le h2, by simp⟩

/-- Witness for the amended C9: the accepted quantity 2 is positive and is
stored unchanged. -/
theorem claim_C9_witness :
    0 < (2 : ℚ) ∧
    (SalesOrder.mk "order-1" "customer-1"
        [⟨"order-1", "item-1", "P001", 2, ⟨100, "USD"⟩⟩] ⟨0⟩ "USD"
        SalesOrderState.PENDING).items
      = (sampleOrder SalesOrderState.PENDING).items ++
        [⟨"order-1", "item-1", strTrim "P001", 2, ⟨100, "USD"⟩⟩] :=
  claim_C9_positive_quantity (sampleOrder SalesOrderState.PENDING) "item-1" "P001" 2 100
    (SalesOrder.mk "order-1" "customer-1"
      [⟨"order-1", "item-1", "P001", 2, ⟨100, "USD"⟩⟩] ⟨0⟩ "USD"
      SalesOrderState.PENDING) rfl

end SalesDomain
